import Mathlib

/-!
Shallow embedding of the hereya/aws-claude-agent stack definition
(src/lib/hereya-claude-agent-stack.ts, class HereyaClaudeAgentStack),
together with theorems settling the claims about it.

The constructor reads five environment variables, validates the image
reference, and builds a fixed resource graph: two S3 buckets, two SQS
queues, one Docker-image Lambda function, three grants, one event-source
mapping, a consumer IAM policy document and seven CloudFormation outputs.
We embed the environment as a record of `Option String` fields, the
JavaScript string/number coercions the code relies on as explicit
functions, and the constructor as `mkStack : Env → String → Except String
StackGraph` (the `String` argument models `this.stackName`).
-/

namespace HereyaClaudeAgent

/-- The process environment inputs read by the constructor (lines 17-24).
`namePfx` models the `namePrefix` environment variable; `none` models an
unset variable. -/
structure Env where
  namePfx : Option String := none
  imageUri : Option String := none
  memorySize : Option String := none
  timeout : Option String := none
  autoDeleteObjects : Option String := none
  deriving Repr, DecidableEq

/-- JavaScript `o || d` for string environment variables: the default is
used when the variable is unset (`undefined`) or the empty string, the two
falsy cases that occur for `process.env` values. -/
def jsOr (o : Option String) (d : String) : String :=
  match o with
  | none => d
  | some s => if s = "" then d else s

/-- Decimal digits accepted by `parseInt(s, 10)`. -/
def jsDigit (c : Char) : Bool := decide ('0' ≤ c) && decide (c ≤ '9')

/-- Value of a decimal digit run read left to right. -/
def digitsVal (ds : List Char) : Nat :=
  ds.foldl (fun acc c => acc * 10 + (c.toNat - 48)) 0

/-- The leading digit run read by `parseInt`; `none` (NaN) when the first
character is not a digit. -/
def parseLeadingDigits (cs : List Char) : Option Nat :=
  let ds := cs.takeWhile jsDigit
  if ds.isEmpty then none else some (digitsVal ds)

/-- JavaScript `parseInt(s, 10)`: skip leading whitespace, optional sign,
read the leading decimal digits; `none` models NaN. -/
def jsParseInt (s : String) : Option Int :=
  let cs := s.data.dropWhile Char.isWhitespace
  match cs with
  | '-' :: rest => (parseLeadingDigits rest).map (fun n => -(n : Int))
  | '+' :: rest => (parseLeadingDigits rest).map (fun n => (n : Int))
  | _ => (parseLeadingDigits cs).map (fun n => (n : Int))

/-- JavaScript `s.split(sep)` for a one-character separator, on character
lists.  `[] ↦ [""]`, and separators at the ends produce empty parts, as in
JavaScript. -/
def splitChar (sep : Char) : List Char → List (List Char)
  | [] => [[]]
  | c :: cs =>
    if c = sep then [] :: splitChar sep cs
    else
      match splitChar sep cs with
      | [] => [[c]]
      | h :: t => (c :: h) :: t

/-- JavaScript `parts.join(sep)` for a one-character separator. -/
def joinChar (sep : Char) : List (List Char) → List Char
  | [] => []
  | [p] => p
  | p :: ps => p ++ sep :: joinChar sep ps

/-- JavaScript `toLowerCase`, restricted to the ASCII lowering the
generated names rely on. -/
def jsToLower (s : String) : String := String.mk (s.data.map Char.toLower)

/-- Line 17: `process.env.namePrefix || 'agent'`. -/
def cfgPfx (env : Env) : String := jsOr env.namePfx "agent"

/-- Line 22: `parseInt(process.env.memorySize || '1024', 10)`. -/
def cfgMemorySize (env : Env) : Option Int :=
  jsParseInt (jsOr env.memorySize "1024")

/-- Line 23: `parseInt(process.env.timeout || '900', 10)`. -/
def cfgTimeout (env : Env) : Option Int :=
  jsParseInt (jsOr env.timeout "900")

/-- Line 24: `process.env.autoDeleteObjects === 'true'` (strict string
equality; an unset variable compares unequal). -/
def cfgAutoDelete (env : Env) : Bool := env.autoDeleteObjects = some "true"

/-- The repository name and image tag extracted from the image URI. -/
structure ImageRef where
  repoName : String
  imageTag : String
  deriving Repr, DecidableEq

/-- Lines 27-29: `uriParts = imageUri.split('/')`, `repoAndTag =
uriParts.slice(1).join('/')`, `[repoName, imageTag = 'latest'] =
repoAndTag.split(':')`.  This total function never fails: the repository
name may come out empty and the tag defaults to `latest`. -/
def parseImageUri (u : String) : ImageRef :=
  let uriParts := splitChar '/' u.data
  let repoAndTag := joinChar '/' (uriParts.drop 1)
  let rt := splitChar ':' repoAndTag
  { repoName := String.mk (rt.headD [])
    imageTag := String.mk ((rt.get? 1).getD "latest".data) }

/-- CDK removal policies used by the buckets. -/
inductive RemovalPolicy
  | destroy
  | retain
  deriving Repr, DecidableEq

/-- Properties of an `s3.Bucket` as set on lines 34-50. -/
structure BucketProps where
  bucketName : String
  versioned : Bool
  removalPolicy : RemovalPolicy
  autoDeleteObjects : Bool
  blockAllPublicAccess : Bool
  s3ManagedEncryption : Bool
  deriving Repr, DecidableEq

/-- Properties of an `sqs.Queue` as set on lines 55-65.  The visibility
timeout is an `Option Int` because the timeout input is parsed with
`parseInt` and may be NaN. -/
structure QueueProps where
  queueName : String
  visibilityTimeoutSeconds : Option Int
  retentionPeriodDays : Nat
  deriving Repr, DecidableEq

/-- Deploy-time references placed in the function environment (lines
81-85): each value is a token resolving to a resource identifier. -/
inductive EnvValue
  | inputBucketName
  | outputBucketName
  | inputQueueUrl
  | outputQueueUrl
  deriving Repr, DecidableEq

/-- Properties of the `lambda.DockerImageFunction` (lines 74-86). -/
structure FunctionProps where
  functionName : String
  ecrRepoName : String
  imageTag : String
  memorySize : Option Int
  timeoutSeconds : Option Int
  environment : List (String × EnvValue)
  deriving Repr, DecidableEq

/-- IAM statement effect. -/
inductive Effect
  | allow
  | deny
  deriving Repr, DecidableEq

/-- ARN tokens appearing as policy resources. -/
inductive ResRef
  | inputBucketArn
  | inputQueueArn
  | outputBucketArn
  | outputQueueArn
  deriving Repr, DecidableEq

/-- A policy resource: either the ARN itself, or the ARN with the `/*`
object suffix appended. -/
inductive PolicyResource
  | plain (r : ResRef)
  | objects (r : ResRef)
  deriving Repr, DecidableEq

/-- An `iam.PolicyStatement` as built on lines 104-135. -/
structure PolicyStatement where
  effect : Effect
  actions : List String
  resources : List PolicyResource
  deriving Repr, DecidableEq

/-- The three grants issued to the function on lines 89-91. -/
inductive GrantK
  | inputBucketReadToFn
  | outputBucketWriteToFn
  | outputQueueSendToFn
  deriving Repr, DecidableEq

/-- Values of the seven CloudFormation outputs (lines 142-175). -/
inductive OutVal
  | inputBucketName
  | inputQueueUrl
  | outputBucketName
  | outputQueueUrl
  | functionName
  | region
  | policyJson
  deriving Repr, DecidableEq

/-- The resource graph produced by one successful constructor run. -/
structure StackGraph where
  inputBucket : BucketProps
  outputBucket : BucketProps
  inputQueue : QueueProps
  outputQueue : QueueProps
  ecrRepoName : String
  fn : FunctionProps
  eventSourceBatchSize : Nat
  grants : List GrantK
  consumerPolicy : List PolicyStatement
  outputs : List (String × OutVal)
  deriving Repr, DecidableEq

/-- Lines 34-175: everything the constructor builds once the image URI
check has passed with value `u`. -/
def buildGraph (env : Env) (stackName u : String) : StackGraph :=
  let pfx := cfgPfx env
  let autoDel := cfgAutoDelete env
  let img := parseImageUri u
  { inputBucket :=
      { bucketName := jsToLower (pfx ++ "-input-" ++ stackName)
        versioned := true
        removalPolicy := if autoDel then .destroy else .retain
        autoDeleteObjects := autoDel
        blockAllPublicAccess := true
        s3ManagedEncryption := true }
    outputBucket :=
      { bucketName := jsToLower (pfx ++ "-output-" ++ stackName)
        versioned := true
        removalPolicy := if autoDel then .destroy else .retain
        autoDeleteObjects := autoDel
        blockAllPublicAccess := true
        s3ManagedEncryption := true }
    inputQueue :=
      { queueName := jsToLower (pfx ++ "-input-" ++ stackName)
        visibilityTimeoutSeconds := (cfgTimeout env).map (fun t => t * 6)
        retentionPeriodDays := 14 }
    outputQueue :=
      { queueName := jsToLower (pfx ++ "-output-" ++ stackName)
        visibilityTimeoutSeconds := some 30
        retentionPeriodDays := 14 }
    ecrRepoName := img.repoName
    fn :=
      { functionName := jsToLower (pfx ++ "-" ++ stackName)
        ecrRepoName := img.repoName
        imageTag := img.imageTag
        memorySize := cfgMemorySize env
        timeoutSeconds := cfgTimeout env
        environment :=
          [("INPUT_BUCKET", .inputBucketName),
           ("OUTPUT_BUCKET", .outputBucketName),
           ("OUTPUT_SQS_QUEUE_URL", .outputQueueUrl)] }
    eventSourceBatchSize := 1
    grants := [.inputBucketReadToFn, .outputBucketWriteToFn, .outputQueueSendToFn]
    consumerPolicy :=
      [{ effect := .allow
         actions := ["s3:PutObject"]
         resources := [.objects .inputBucketArn] },
       { effect := .allow
         actions := ["sqs:SendMessage"]
         resources := [.plain .inputQueueArn] },
       { effect := .allow
         actions := ["s3:GetObject"]
         resources := [.objects .outputBucketArn] },
       { effect := .allow
         actions := ["s3:ListBucket"]
         resources := [.plain .outputBucketArn] },
       { effect := .allow
         actions := ["sqs:ReceiveMessage", "sqs:DeleteMessage", "sqs:GetQueueAttributes"]
         resources := [.plain .outputQueueArn] }]
    outputs :=
      [("inputBucketName", .inputBucketName),
       ("inputQueueUrl", .inputQueueUrl),
       ("outputBucketName", .outputBucketName),
       ("outputQueueUrl", .outputQueueUrl),
       ("lambdaFunctionName", .functionName),
       ("awsRegion", .region),
       ("iamPolicyClaudeAgentClient", .policyJson)] }

/-- The whole constructor, lines 17-175: lines 18-21 validate the image
URI (`if (!imageUri) throw new Error(...)`, where `!imageUri` is true for
an unset variable and for the empty string), then the graph is built. -/
def mkStack (env : Env) (stackName : String) : Except String StackGraph :=
  match env.imageUri with
  | none => .error "imageUri environment variable is required"
  | some u =>
    if u = "" then .error "imageUri environment variable is required"
    else .ok (buildGraph env stackName u)

/-- A provider resource instantiated by the constructor. -/
inductive Resource
  | bucket (id : String) (props : BucketProps)
  | queue (id : String) (props : QueueProps)
  | dockerImageFunction (id : String) (props : FunctionProps)
  | eventSourceMapping (batchSize : Nat)
  deriving Repr, DecidableEq

/-- Whether a resource is an S3 bucket. -/
def Resource.isBucket : Resource → Bool
  | .bucket _ _ => true
  | _ => false

/-- Whether a resource is an SQS queue. -/
def Resource.isQueue : Resource → Bool
  | .queue _ _ => true
  | _ => false

/-- The provider resources instantiated by one constructor run, in source
order (the ECR reference on line 70 is an import, not a resource). -/
def StackGraph.resources (g : StackGraph) : List Resource :=
  [.bucket "InputBucket" g.inputBucket,
   .bucket "OutputBucket" g.outputBucket,
   .queue "InputQueue" g.inputQueue,
   .queue "OutputQueue" g.outputQueue,
   .dockerImageFunction "AgentFunction" g.fn,
   .eventSourceMapping g.eventSourceBatchSize]

/-- The image URI used by the repository's test-suite. -/
def uriDefault : String :=
  "123456789012.dkr.ecr.us-east-1.amazonaws.com/my-agent:latest"

/-- Environment with only the required image URI set, as in the tests. -/
def envDefault : Env := { imageUri := some uriDefault }

/-- The graph built from `envDefault` with stack name `TestStack`. -/
def gDefault : StackGraph := buildGraph envDefault "TestStack" uriDefault

/-- Environment with every optional input set, as in the override tests. -/
def envCustom : Env :=
  { namePfx := some "myapp"
    imageUri := some uriDefault
    memorySize := some "2048"
    timeout := some "300"
    autoDeleteObjects := some "true" }

/-- The graph built from `envCustom` with stack name `TestStack`. -/
def gCustom : StackGraph := buildGraph envCustom "TestStack" uriDefault

/-- Inversion for a successful construction: the image URI was present and
non-empty, and the result is the built graph. -/
theorem mkStack_ok_elim {env : Env} {s : String} {g : StackGraph}
    (h : mkStack env s = Except.ok g) :
    ∃ u, env.imageUri = some u ∧ u ≠ "" ∧ g = buildGraph env s u := by
  unfold mkStack at h
  cases hi : env.imageUri with
  | none => rw [hi] at h; simp at h
  | some u =>
    rw [hi] at h
    by_cases hu : u = ""
    · subst hu; simp at h
    · simp [hu] at h
      exact ⟨u, rfl, hu, h.symm⟩

/-- Claim C1: construction fails with the error message "imageUri
environment variable is required" exactly when the imageUri variable is
unset or empty; for a non-empty imageUri this error is not thrown, and no
other error is raised by the stack definition itself. -/
theorem C1_imageUri_required (env : Env) (s : String) :
    (mkStack env s = Except.error "imageUri environment variable is required"
      ↔ (env.imageUri = none ∨ env.imageUri = some ""))
    ∧ ∀ e, mkStack env s = Except.error e →
        e = "imageUri environment variable is required" := by
  unfold mkStack
  cases hi : env.imageUri with
  | none => simp
  | some u =>
    by_cases hu : u = ""
    · subst hu; simp
    · simp [hu]

/-- Claim C1 witness: a concrete environment with imageUri unset yields
exactly the required-variable error. -/
theorem C1_witness :
    mkStack { imageUri := none } "TestStack"
      = Except.error "imageUri environment variable is required" :=
  (C1_imageUri_required { imageUri := none } "TestStack").1.mpr (Or.inl rfl)

/-- Claim C2: when the timeout input parses to T (with 900 the value when
the input is unset), the input queue's visibility timeout is 6*T seconds
and the function's own timeout is T seconds. -/
theorem C2_timeouts (env : Env) (s : String) (g : StackGraph) (T : Int)
    (hok : mkStack env s = Except.ok g)
    (hT : cfgTimeout env = some T) :
    g.inputQueue.visibilityTimeoutSeconds = some (6 * T)
    ∧ g.fn.timeoutSeconds = some T
    ∧ (env.timeout = none → T = 900) := by
  obtain ⟨u, hu, hne, rfl⟩ := mkStack_ok_elim hok
  refine ⟨?_, ?_, ?_⟩
  · show (cfgTimeout env).map (fun t => t * 6) = some (6 * T)
    rw [hT]
    simp [Int.mul_comm]
  · exact hT
  · intro h0
    have h9 : cfgTimeout env = some 900 := by
      unfold cfgTimeout
      rw [h0]
      rfl
    rw [h9] at hT
    exact (Option.some.inj hT).symm

/-- Claim C2 witness: with timeout input "300", the input queue visibility
timeout is 1800 seconds and the function timeout is 300 seconds. -/
theorem C2_witness :
    gCustom.inputQueue.visibilityTimeoutSeconds = some (6 * 300)
    ∧ gCustom.fn.timeoutSeconds = some 300
    ∧ (envCustom.timeout = none → (300 : Int) = 900) :=
  C2_timeouts envCustom "TestStack" gCustom 300 rfl rfl

/-- Claim C3: the consumer policy document consists of exactly the five
Allow statements for the four access grants: s3:PutObject on the input
bucket's objects, sqs:SendMessage on the input queue, s3:GetObject and
s3:ListBucket on the output bucket's objects and bucket, and
sqs:ReceiveMessage, sqs:DeleteMessage, sqs:GetQueueAttributes on the
output queue — and no others. -/
theorem C3_consumer_policy (env : Env) (s : String) (g : StackGraph)
    (hok : mkStack env s = Except.ok g) :
    g.consumerPolicy =
      [{ effect := .allow, actions := ["s3:PutObject"],
         resources := [.objects .inputBucketArn] },
       { effect := .allow, actions := ["sqs:SendMessage"],
         resources := [.plain .inputQueueArn] },
       { effect := .allow, actions := ["s3:GetObject"],
         resources := [.objects .outputBucketArn] },
       { effect := .allow, actions := ["s3:ListBucket"],
         resources := [.plain .outputBucketArn] },
       { effect := .allow,
         actions := ["sqs:ReceiveMessage", "sqs:DeleteMessage",
                     "sqs:GetQueueAttributes"],
         resources := [.plain .outputQueueArn] }] := by
  obtain ⟨u, hu, hne, rfl⟩ := mkStack_ok_elim hok
  rfl

/-- Claim C3 witness: the policy of a concrete construction is exactly the
five expected statements. -/
theorem C3_witness :
    gDefault.consumerPolicy =
      [{ effect := .allow, actions := ["s3:PutObject"],
         resources := [.objects .inputBucketArn] },
       { effect := .allow, actions := ["sqs:SendMessage"],
         resources := [.plain .inputQueueArn] },
       { effect := .allow, actions := ["s3:GetObject"],
         resources := [.objects .outputBucketArn] },
       { effect := .allow, actions := ["s3:ListBucket"],
         resources := [.plain .outputBucketArn] },
       { effect := .allow,
         actions := ["sqs:ReceiveMessage", "sqs:DeleteMessage",
                     "sqs:GetQueueAttributes"],
         resources := [.plain .outputQueueArn] }] :=
  C3_consumer_policy envDefault "TestStack" gDefault rfl

/-- Claim C4 counterexample: the image reference "justaword" has no slash
and hence no registry/repository/tag structure — its URI split has a
single component and the extracted repository name is empty — yet
construction succeeds, refuting "construction succeeds only when the image
reference parses into those three components". -/
theorem C4_counterexample :
    mkStack { imageUri := some "justaword" } "TestStack"
      = Except.ok (buildGraph { imageUri := some "justaword" } "TestStack"
          "justaword")
    ∧ (splitChar '/' "justaword".data).length = 1
    ∧ (parseImageUri "justaword").repoName = "" := ⟨rfl, rfl, rfl⟩

/-- Claim C4 amended: the split of a present image reference never fails —
the repository name may come out empty and the tag defaults to "latest" —
so construction succeeds for every non-empty image reference. -/
theorem C4_nonempty_uri_constructs (env : Env) (s u : String)
    (hu : env.imageUri = some u) (hne : u ≠ "") :
    mkStack env s = Except.ok (buildGraph env s u) := by
  unfold mkStack
  rw [hu]
  simp [hne]

/-- Claim C4 witness: a concrete well-formed image reference constructs. -/
theorem C4_witness :
    mkStack envDefault "TestStack"
      = Except.ok (buildGraph envDefault "TestStack" uriDefault) :=
  C4_nonempty_uri_constructs envDefault "TestStack" uriDefault rfl (by decide)

/-- Claim C5: memory defaults to 1024, timeout to 900 seconds and the name
prefix to "agent" when the corresponding input is unset; an explicitly set
value (a parsing number, a non-empty prefix) is used instead. -/
theorem C5_defaults_and_overrides (env : Env) (s : String) (g : StackGraph)
    (hok : mkStack env s = Except.ok g) :
    (env.memorySize = none → g.fn.memorySize = some 1024)
    ∧ (env.timeout = none → g.fn.timeoutSeconds = some 900)
    ∧ (env.namePfx = none → cfgPfx env = "agent")
    ∧ (∀ ms m, env.memorySize = some ms → jsParseInt ms = some m →
        g.fn.memorySize = some m)
    ∧ (∀ ts t, env.timeout = some ts → jsParseInt ts = some t →
        g.fn.timeoutSeconds = some t)
    ∧ (∀ p, env.namePfx = some p → p ≠ "" → cfgPfx env = p) := by
  obtain ⟨u, hu, hne, rfl⟩ := mkStack_ok_elim hok
  refine ⟨?_, ?_, ?_, ?_, ?_, ?_⟩
  · intro h0
    show cfgMemorySize env = some 1024
    unfold cfgMemorySize
    rw [h0]
    rfl
  · intro h0
    show cfgTimeout env = some 900
    unfold cfgTimeout
    rw [h0]
    rfl
  · intro h0
    unfold cfgPfx
    rw [h0]
    rfl
  · intro ms m hms hp
    show cfgMemorySize env = some m
    unfold cfgMemorySize jsOr
    rw [hms]
    by_cases he : ms = ""
    · subst he
      rw [show jsParseInt "" = (none : Option Int) from rfl] at hp
      exact Option.noConfusion hp
    · simp [he]
      exact hp
  · intro ts t hts hp
    show cfgTimeout env = some t
    unfold cfgTimeout jsOr
    rw [hts]
    by_cases he : ts = ""
    · subst he
      rw [show jsParseInt "" = (none : Option Int) from rfl] at hp
      exact Option.noConfusion hp
    · simp [he]
      exact hp
  · intro p hp hpe
    unfold cfgPfx jsOr
    rw [hp]
    simp [hpe]

/-- Claim C5 witness: concrete default and override environments. -/
theorem C5_witness :
    gDefault.fn.memorySize = some 1024
    ∧ gDefault.fn.timeoutSeconds = some 900
    ∧ gCustom.fn.memorySize = some 2048
    ∧ cfgPfx envCustom = "myapp" :=
  ⟨(C5_defaults_and_overrides envDefault "TestStack" gDefault rfl).1 rfl,
   (C5_defaults_and_overrides envDefault "TestStack" gDefault rfl).2.1 rfl,
   (C5_defaults_and_overrides envCustom "TestStack" gCustom rfl).2.2.2.1
     "2048" 2048 rfl rfl,
   (C5_defaults_and_overrides envCustom "TestStack" gCustom rfl).2.2.2.2.2
     "myapp" rfl (by decide)⟩

/-- Claim C6: every resource name is the lowercasing of the prefix, a
per-role suffix and the stack identifier: input bucket and input queue are
lowercase(P + "-input-" + S), output bucket and output queue are
lowercase(P + "-output-" + S), and the function name is
lowercase(P + "-" + S). -/
theorem C6_resource_names (env : Env) (s : String) (g : StackGraph)
    (hok : mkStack env s = Except.ok g) :
    g.inputBucket.bucketName = jsToLower (cfgPfx env ++ "-input-" ++ s)
    ∧ g.inputQueue.queueName = jsToLower (cfgPfx env ++ "-input-" ++ s)
    ∧ g.outputBucket.bucketName = jsToLower (cfgPfx env ++ "-output-" ++ s)
    ∧ g.outputQueue.queueName = jsToLower (cfgPfx env ++ "-output-" ++ s)
    ∧ g.fn.functionName = jsToLower (cfgPfx env ++ "-" ++ s) := by
  obtain ⟨u, hu, hne, rfl⟩ := mkStack_ok_elim hok
  exact ⟨rfl, rfl, rfl, rfl, rfl⟩

/-- Claim C6 witness: the concrete names for prefix "myapp" and stack name
"TestStack". -/
theorem C6_witness :
    gCustom.inputBucket.bucketName = "myapp-input-teststack"
    ∧ gCustom.inputQueue.queueName = "myapp-input-teststack"
    ∧ gCustom.outputBucket.bucketName = "myapp-output-teststack"
    ∧ gCustom.outputQueue.queueName = "myapp-output-teststack"
    ∧ gCustom.fn.functionName = "myapp-teststack" :=
  C6_resource_names envCustom "TestStack" gCustom rfl

/-- Claim C7: one successful construction instantiates exactly two bucket
resources and exactly two queue resources. -/
theorem C7_resource_counts (env : Env) (s : String) (g : StackGraph)
    (hok : mkStack env s = Except.ok g) :
    g.resources.countP Resource.isBucket = 2
    ∧ g.resources.countP Resource.isQueue = 2 := by
  obtain ⟨u, hu, hne, rfl⟩ := mkStack_ok_elim hok
  exact ⟨rfl, rfl⟩

/-- Claim C7 witness: resource counts of a concrete construction. -/
theorem C7_witness :
    gDefault.resources.countP Resource.isBucket = 2
    ∧ gDefault.resources.countP Resource.isQueue = 2 :=
  C7_resource_counts envDefault "TestStack" gDefault rfl

/-- Claim C8 counterexample: the function environment of a concrete
construction has exactly the three entries INPUT_BUCKET, OUTPUT_BUCKET and
OUTPUT_SQS_QUEUE_URL; no entry carries the input queue's URL, refuting
"the URLs of the queues are passed to the function". -/
theorem C8_counterexample :
    gDefault.fn.environment =
      [("INPUT_BUCKET", EnvValue.inputBucketName),
       ("OUTPUT_BUCKET", EnvValue.outputBucketName),
       ("OUTPUT_SQS_QUEUE_URL", EnvValue.outputQueueUrl)]
    ∧ (gDefault.fn.environment.map Prod.snd).contains EnvValue.inputQueueUrl
        = false := ⟨rfl, rfl⟩

/-- Claim C8 amended: the function environment holds the input bucket
name, the output bucket name and the output queue's URL — the input
queue's URL is not among them. -/
theorem C8_fn_environment (env : Env) (s : String) (g : StackGraph)
    (hok : mkStack env s = Except.ok g) :
    g.fn.environment =
      [("INPUT_BUCKET", EnvValue.inputBucketName),
       ("OUTPUT_BUCKET", EnvValue.outputBucketName),
       ("OUTPUT_SQS_QUEUE_URL", EnvValue.outputQueueUrl)] := by
  obtain ⟨u, hu, hne, rfl⟩ := mkStack_ok_elim hok
  rfl

/-- Claim C8 witness: the function environment of another concrete
construction. -/
theorem C8_witness :
    gCustom.fn.environment =
      [("INPUT_BUCKET", EnvValue.inputBucketName),
       ("OUTPUT_BUCKET", EnvValue.outputBucketName),
       ("OUTPUT_SQS_QUEUE_URL", EnvValue.outputQueueUrl)] :=
  C8_fn_environment envCustom "TestStack" gCustom rfl

/-- Claim C9: the output queue's visibility timeout is the fixed constant
30 seconds for every configuration, and both queues have a fixed 14-day
retention period. -/
theorem C9_fixed_queue_params (env : Env) (s : String) (g : StackGraph)
    (hok : mkStack env s = Except.ok g) :
    g.outputQueue.visibilityTimeoutSeconds = some 30
    ∧ g.inputQueue.retentionPeriodDays = 14
    ∧ g.outputQueue.retentionPeriodDays = 14 := by
  obtain ⟨u, hu, hne, rfl⟩ := mkStack_ok_elim hok
  exact ⟨rfl, rfl, rfl⟩

/-- Claim C9 witness: the fixed queue parameters of a concrete
construction. -/
theorem C9_witness :
    gDefault.outputQueue.visibilityTimeoutSeconds = some 30
    ∧ gDefault.inputQueue.retentionPeriodDays = 14
    ∧ gDefault.outputQueue.retentionPeriodDays = 14 :=
  C9_fixed_queue_params envDefault "TestStack" gDefault rfl

/-- Claim C10: both buckets get removal policy DESTROY with auto-deletion
of objects exactly when the autoDeleteObjects variable equals the string
"true"; for every other value, including an unset variable, both get
RETAIN without auto-deletion, and the two buckets always share the same
removal policy. -/
theorem C10_removal_policy (env : Env) (s : String) (g : StackGraph)
    (hok : mkStack env s = Except.ok g) :
    ((g.inputBucket.removalPolicy = RemovalPolicy.destroy
        ∧ g.inputBucket.autoDeleteObjects = true
        ∧ g.outputBucket.removalPolicy = RemovalPolicy.destroy
        ∧ g.outputBucket.autoDeleteObjects = true)
      ↔ env.autoDeleteObjects = some "true")
    ∧ (env.autoDeleteObjects ≠ some "true" →
        g.inputBucket.removalPolicy = RemovalPolicy.retain
        ∧ g.outputBucket.removalPolicy = RemovalPolicy.retain
        ∧ g.inputBucket.autoDeleteObjects = false
        ∧ g.outputBucket.autoDeleteObjects = false)
    ∧ g.inputBucket.removalPolicy = g.outputBucket.removalPolicy := by
  obtain ⟨u, hu, hne, rfl⟩ := mkStack_ok_elim hok
  by_cases hA : env.autoDeleteObjects = some "true"
  · have hb : cfgAutoDelete env = true := by simp [cfgAutoDelete, hA]
    refine ⟨?_, ?_, ?_⟩ <;> simp [buildGraph, hb, hA]
  · have hb : cfgAutoDelete env = false := by simp [cfgAutoDelete, hA]
    refine ⟨?_, ?_, ?_⟩ <;> simp [buildGraph, hb, hA]

/-- Claim C10 witness: with autoDeleteObjects set to "true", both concrete
buckets are DESTROY with auto-deletion. -/
theorem C10_witness :
    gCustom.inputBucket.removalPolicy = RemovalPolicy.destroy
    ∧ gCustom.inputBucket.autoDeleteObjects = true
    ∧ gCustom.outputBucket.removalPolicy = RemovalPolicy.destroy
    ∧ gCustom.outputBucket.autoDeleteObjects = true :=
  ((C10_removal_policy envCustom "TestStack" gCustom rfl).1).mpr rfl

end HereyaClaudeAgent
